import Mathlib

/-!
Verification development for the meal-prep application
(backend `app.py` + `models.py`, frontend `app.py`).

Numeric model: Python floats are embedded as rationals (`ℚ`), so the
accumulation arithmetic is exact; Python's built-in `round(x, 2)`
(round-half-to-even at the second decimal) is modelled by `round2`.
Python dict `.get(key, default)` access is modelled with `Option` fields
and `Option.getD`.
-/

/-- The floor of a rational, computed from its reduced fraction with
floor division (kernel-reducible, unlike the `Int.floor` instance). -/
def ratFloor (x : ℚ) : ℤ := x.num.fdiv x.den

/-- Python's `round` to the nearest integer, ties to even (banker's
rounding), on exact rationals. -/
def pyRound (x : ℚ) : ℤ :=
  let n : ℤ := ratFloor x
  let frac : ℚ := x - n
  if frac < 1 / 2 then n
  else if 1 / 2 < frac then n + 1
  else if n % 2 = 0 then n else n + 1

/-- Python's `round(x, 2)`: round to 2 decimal places. -/
def round2 (x : ℚ) : ℚ := (pyRound (100 * x) : ℚ) / 100

/-- The four-field nutrient record used throughout the application
(`{protein, fat, carbs, calories}`). -/
structure NutrientSet where
  protein : ℚ
  fat : ℚ
  carbs : ℚ
  calories : ℚ
deriving DecidableEq

/-- A nutrient dict as the backend reads it: each of the four keys may be
absent (backend uses `nutrients.get(field, 0)`). -/
structure RawNutrients where
  protein : Option ℚ
  fat : Option ℚ
  carbs : Option ℚ
  calories : Option ℚ
deriving DecidableEq

/-- The empty nutrient dict `{}`. -/
def rawNone : RawNutrients := ⟨none, none, none, none⟩

/-- An ingredient entry as the backend `/api/calculate` endpoint reads it:
`ingredient.get('grams', 0)` and `ingredient.get('nutrients', {})`. -/
structure BIngredient where
  grams : Option ℚ
  nutrients : Option RawNutrients
deriving DecidableEq

/-- One loop iteration of the totals loop in backend `calculate_meal`
(src/backend/app.py lines 345-357): `factor = grams / 100` and each field
accumulates `nutrients.get(field, 0) * factor`. -/
def stepB (t : NutrientSet) (ingredient : BIngredient) : NutrientSet :=
  let grams := ingredient.grams.getD 0
  let nutrients := ingredient.nutrients.getD rawNone
  let factor := grams / 100
  { protein := t.protein + nutrients.protein.getD 0 * factor
    fat := t.fat + nutrients.fat.getD 0 * factor
    carbs := t.carbs + nutrients.carbs.getD 0 * factor
    calories := t.calories + nutrients.calories.getD 0 * factor }

/-- The accumulated totals of backend `calculate_meal`: the loop starting
from `{'protein': 0, 'fat': 0, 'carbs': 0, 'calories': 0}`. -/
def totalsB (ingredients : List BIngredient) : NutrientSet :=
  ingredients.foldl stepB ⟨0, 0, 0, 0⟩

/-- The result shape of backend `calculate_meal`:
`{total, perServing, servings}`. -/
structure CalcResult where
  total : NutrientSet
  perServing : NutrientSet
  servings : ℚ
deriving DecidableEq

/-- The computation inside backend `calculate_meal` after validation
(src/backend/app.py lines 337-376): accumulate exact totals, then round
each output field to 2 decimals, dividing by `servings` for `perServing`. -/
def calcCore (ingredients : List BIngredient) (servings : ℚ) : CalcResult :=
  let totals := totalsB ingredients
  let per_serving : NutrientSet :=
    { protein := round2 (totals.protein / servings)
      fat := round2 (totals.fat / servings)
      carbs := round2 (totals.carbs / servings)
      calories := round2 (totals.calories / servings) }
  { total :=
      { protein := round2 totals.protein
        fat := round2 totals.fat
        carbs := round2 totals.carbs
        calories := round2 totals.calories }
    perServing := per_serving
    servings := servings }

/-- The JSON body of a `/api/calculate` request; both keys may be absent
(`data.get('ingredients', [])`, `data.get('servings', 1)`). -/
structure CalcRequest where
  ingredients : Option (List BIngredient)
  servings : Option ℚ
deriving DecidableEq

/-- An HTTP response of the `/api/calculate` endpoint: 400 with an error
message, or 200 with a result. -/
inductive CalcResponse where
  | badRequest (msg : String)
  | ok (result : CalcResult)
deriving DecidableEq

/-- Backend endpoint `calculate_meal` (src/backend/app.py lines 303-380):
a missing/unparseable body is a 400; an empty ingredient list or
non-positive servings is a 400; otherwise the nutrition computation runs. -/
def calculate_meal (body : Option CalcRequest) : CalcResponse :=
  match body with
  | none => .badRequest "No JSON data provided"
  | some data =>
    let ingredients := data.ingredients.getD []
    let servings := data.servings.getD 1
    if ingredients = [] ∨ servings ≤ 0 then
      .badRequest "Invalid data: ingredients required and servings must be > 0"
    else
      .ok (calcCore ingredients servings)

/-- Whether a `/api/calculate` response is a 400 validation error. -/
def CalcResponse.isBadRequest : CalcResponse → Bool
  | .badRequest _ => true
  | .ok _ => false

/-- An ingredient entry as the frontend stores it in the session draft:
all fields present (frontend `add_ingredient` always writes them). -/
structure FIngredient where
  fdcId : ℤ
  description : String
  brandName : String
  grams : ℚ
  nutrients : NutrientSet
deriving DecidableEq

/-- One loop iteration of the totals loop in frontend
`calculate_nutrition` (src/frontend/app.py lines 482-490). -/
def stepF (t : NutrientSet) (ing : FIngredient) : NutrientSet :=
  let factor := ing.grams / 100
  { protein := t.protein + ing.nutrients.protein * factor
    fat := t.fat + ing.nutrients.fat * factor
    carbs := t.carbs + ing.nutrients.carbs * factor
    calories := t.calories + ing.nutrients.calories * factor }

/-- Result shape of frontend `calculate_nutrition`: `{total, perServing}`. -/
structure NutritionResult where
  total : NutrientSet
  perServing : NutrientSet
deriving DecidableEq

/-- Frontend helper `calculate_nutrition` (src/frontend/app.py lines
452-508). -/
def calculate_nutrition (ingredients : List FIngredient) (servings : ℚ) :
    NutritionResult :=
  let totals := ingredients.foldl stepF ⟨0, 0, 0, 0⟩
  let per_serving : NutrientSet :=
    { protein := round2 (totals.protein / servings)
      fat := round2 (totals.fat / servings)
      carbs := round2 (totals.carbs / servings)
      calories := round2 (totals.calories / servings) }
  { total :=
      { protein := round2 totals.protein
        fat := round2 totals.fat
        carbs := round2 totals.carbs
        calories := round2 totals.calories }
    perServing := per_serving }

/-- A fully populated backend ingredient dict, as produced e.g. by
serialising a frontend draft ingredient: every key present. -/
def ingOf (g : ℚ) (n : NutrientSet) : BIngredient :=
  ⟨some g, some ⟨some n.protein, some n.fat, some n.carbs, some n.calories⟩⟩

/-! ## Nutrient extractor (backend `extract_nutrients`) -/

/-- The four canonical nutrient fields. -/
inductive NutField where
  | protein
  | fat
  | carbs
  | calories
deriving DecidableEq

/-- Read one canonical field of a `NutrientSet`. -/
def getField (n : NutrientSet) : NutField → ℚ
  | .protein => n.protein
  | .fat => n.fat
  | .carbs => n.carbs
  | .calories => n.calories

/-- Write one canonical field of a `NutrientSet`. -/
def setField (n : NutrientSet) (f : NutField) (v : ℚ) : NutrientSet :=
  match f with
  | .protein => { n with protein := v }
  | .fat => { n with fat := v }
  | .carbs => { n with carbs := v }
  | .calories => { n with calories := v }

/-- Whether `pat` is a contiguous prefix of `s` (character lists). -/
def charsStartWith : List Char → List Char → Bool
  | [], _ => true
  | _ :: _, [] => false
  | a :: as, b :: bs => a == b && charsStartWith as bs

/-- Whether `pat` occurs contiguously inside `s` (character lists):
the Python `pat in s` substring test. -/
def charsContain (pat : List Char) : List Char → Bool
  | [] => pat.isEmpty
  | c :: rest => charsStartWith pat (c :: rest) || charsContain pat rest

/-- Python `pat in s` on strings (case-sensitive containment). -/
def strContains (pat s : String) : Bool := charsContain pat.data s.data

/-- The fixed matcher table `nutrient_mapping` of backend
`extract_nutrients` (src/backend/app.py lines 615-620), in Python dict
insertion order. -/
def nutrient_mapping : List (String × NutField) :=
  [("Protein", .protein),
   ("Total lipid (fat)", .fat),
   ("Carbohydrate, by difference", .carbs),
   ("Energy", .calories)]

/-- A raw USDA nutrient record: `nutrient.get('nutrientName', '')` and
`nutrient.get('value', 0)` may both be absent. -/
structure RawNutrient where
  nutrientName : Option String
  value : Option ℚ
deriving DecidableEq

/-- The inner matcher loop of `extract_nutrients` for one record: the
first mapping entry whose USDA name is contained in the record's name
(the `break` stops the loop at the first hit). -/
def firstMatch (name : String) : Option NutField :=
  (nutrient_mapping.find? fun pf => strContains pf.1 name).map (·.2)

/-- The canonical field a raw record is assigned to, if any. -/
def matchField (r : RawNutrient) : Option NutField :=
  firstMatch (r.nutrientName.getD "")

/-- One iteration of the outer loop of `extract_nutrients`: assign the
record's value to the matched canonical field, if any. -/
def applyRecord (nutrients : NutrientSet) (r : RawNutrient) : NutrientSet :=
  match matchField r with
  | none => nutrients
  | some f => setField nutrients f (r.value.getD 0)

/-- Backend helper `extract_nutrients` (src/backend/app.py lines 582-633):
start from all-zero fields and process the raw records in order. -/
def extract_nutrients (food_nutrients : List RawNutrient) : NutrientSet :=
  food_nutrients.foldl applyRecord ⟨0, 0, 0, 0⟩

/-- Spec-side characterisation of the extractor: the value of the last
record (in iteration order) assigned to field `f`, defaulting to 0 when
no record matches `f`. -/
def lastMatchValue (l : List RawNutrient) (f : NutField) : ℚ :=
  (((l.filter fun r => matchField r == some f).getLast?).map fun r => r.value.getD 0).getD 0

/-! ## Meal store (backend `models.py` + meal endpoints) -/

/-- A row of the `meals` table. -/
structure MealRow where
  id : ℕ
  name : String
  servings : ℤ
  total : NutrientSet
  perServing : NutrientSet
deriving DecidableEq

/-- A row of the `ingredients` table; `meal_id` is the foreign key to its
owning meal. -/
structure IngredientRow where
  id : ℕ
  meal_id : ℕ
  fdc_id : ℤ
  description : String
  brand_name : String
  grams : ℚ
  nutrients : NutrientSet
deriving DecidableEq

/-- The two-table relational store. -/
structure Store where
  meals : List MealRow
  ingredients : List IngredientRow
deriving DecidableEq

/-- `db.query(Meal).filter(Meal.id == meal_id).first()`. -/
def findMeal (s : Store) (mealId : ℕ) : Option MealRow :=
  s.meals.find? fun m => m.id == mealId

/-- The ingredient rows owned by one meal (the ORM `meal.ingredients`
relationship keyed on the `meal_id` foreign key). -/
def mealIngredients (s : Store) (mealId : ℕ) : List IngredientRow :=
  s.ingredients.filter fun i => i.meal_id == mealId

/-- Backend endpoint `get_meal` (src/backend/app.py lines 509-534):
the meal row with its ingredients, or a 404 signalled by `none`. -/
def get_meal (s : Store) (mealId : ℕ) : Option (MealRow × List IngredientRow) :=
  (findMeal s mealId).map fun m => (m, mealIngredients s mealId)

/-- Result of the delete-meal endpoint: 404 or 200. -/
inductive DeleteResult where
  | notFound
  | deleted
deriving DecidableEq

/-- Backend endpoint `delete_meal` (src/backend/app.py lines 540-576):
look the meal up; if absent return 404 leaving the store as it was;
otherwise remove the meal row and, through the ORM relationship's
`cascade="all, delete-orphan"` (src/backend/models.py line 108), all of
its ingredient rows, in one committed transaction. -/
def delete_meal (s : Store) (mealId : ℕ) : DeleteResult × Store :=
  match findMeal s mealId with
  | none => (.notFound, s)
  | some _ =>
    (.deleted,
     { meals := s.meals.filter fun m => ¬ m.id == mealId
       ingredients := s.ingredients.filter fun i => ¬ i.meal_id == mealId })

/-! ## Draft session (frontend session transitions) -/

/-- The session-held meal draft (`session['current_meal']`). -/
structure Draft where
  name : String
  servings : ℤ
  ingredients : List FIngredient
deriving DecidableEq

/-- The default draft created when the session has no `current_meal`:
`{'name': 'My Meal', 'servings': 1, 'ingredients': []}`. -/
def defaultDraft : Draft := ⟨"My Meal", 1, []⟩

/-- `session.get('current_meal', default)`. -/
def getDraft (sess : Option Draft) : Draft := sess.getD defaultDraft

/-- Frontend `update_meal_info` (src/frontend/app.py lines 301-323):
overwrite name (`form.get('name', 'My Meal')`) and servings
(`int(form.get('servings', 1))`) on the session draft. The integer is
stored as supplied; no coercion to a minimum is applied. -/
def update_meal_info (sess : Option Draft) (nameField : Option String)
    (servingsField : Option ℤ) : Draft :=
  let current_meal := getDraft sess
  { current_meal with
    name := nameField.getD "My Meal"
    servings := servingsField.getD 1 }

/-- Frontend `remove_ingredient` (src/frontend/app.py lines 269-295):
drop the entry at `index` when `0 <= index < len(ingredients)`,
otherwise leave the list unchanged. -/
def remove_ingredient (sess : Option Draft) (index : ℕ) : Draft :=
  let current_meal := getDraft sess
  if index < current_meal.ingredients.length then
    { current_meal with ingredients := current_meal.ingredients.eraseIdx index }
  else
    current_meal

/-- Outcome of the frontend `save_meal` route. -/
inductive SaveOutcome where
  | validationError
  | saved
  | backendError
deriving DecidableEq

/-- Frontend `save_meal` (src/frontend/app.py lines 329-379): reject an
empty ingredient list before calling the backend; on a 2xx backend
response pop the session draft; otherwise render an error page and keep
the session untouched. `storeOk` abstracts `response.ok` of the backend
`create` call (a raised exception behaves like a non-ok response: error
page, session kept). Returns the outcome and the new session state. -/
def save_meal (sess : Option Draft) (storeOk : Bool) : SaveOutcome × Option Draft :=
  let current_meal := getDraft sess
  if current_meal.ingredients = [] then
    (.validationError, sess)
  else if storeOk then
    (.saved, none)
  else
    (.backendError, sess)

/-! ## Autocomplete (backend `autocomplete`) -/

/-- One food item of the upstream search payload, as read by the
autocomplete loop: `food.get('description', '')`, `food.get('fdcId', '')`. -/
structure UpstreamFood where
  description : Option String
  fdcId : Option ℤ
deriving DecidableEq

/-- One autocomplete suggestion `{name, fdcId}`. -/
structure Suggestion where
  name : String
  fdcId : Option ℤ
deriving DecidableEq

/-- `{'name': food.get('description', ''), 'fdcId': food.get('fdcId', '')}`. -/
def toSuggestion (f : UpstreamFood) : Suggestion := ⟨f.description.getD "", f.fdcId⟩

/-- Backend endpoint `autocomplete` (src/backend/app.py lines 111-174).
`upstream` abstracts the USDA call: `Except.error` is any raised
exception (timeout, HTTP error, bad JSON), `Except.ok none` a 200 JSON
payload without a `foods` key, `Except.ok (some foods)` a payload with
one. The returned flag records whether the upstream call was made (the
guard `len(query) < 2` returns before the `try` block). -/
def autocomplete (q : String) (upstream : Except String (Option (List UpstreamFood))) :
    Bool × List Suggestion :=
  if q.length < 2 then
    (false, [])
  else
    match upstream with
    | .error _ => (true, [])
    | .ok none => (true, [])
    | .ok (some foods) => (true, (foods.take 10).map toSuggestion)

/-! ## Concrete inputs used by the witness theorems -/

/-- The worked example of the specification: 200 g of an ingredient with
31 protein / 3.57 fat / 0 carbs / 165 calories per 100 g, and 150 g of
one with 2.7 / 0.3 / 28 / 130, split into 2 servings. -/
def exampleIngredients : List (ℚ × NutrientSet) :=
  [(200, ⟨31, 357/100, 0, 165⟩), (150, ⟨27/10, 3/10, 28, 130⟩)]

/-- The specification's worked example as frontend draft entries. -/
def exampleDraftEntries : List FIngredient :=
  [⟨1, "a", "", 200, ⟨31, 357/100, 0, 165⟩⟩,
   ⟨2, "b", "", 150, ⟨27/10, 3/10, 28, 130⟩⟩]

/-- A store holding two meals with one ingredient row each. -/
def exampleStore : Store :=
  { meals :=
      [⟨1, "Meal A", 2, ⟨1, 1, 1, 1⟩, ⟨1, 1, 1, 1⟩⟩,
       ⟨2, "Meal B", 1, ⟨2, 2, 2, 2⟩, ⟨2, 2, 2, 2⟩⟩]
    ingredients :=
      [⟨10, 1, 100, "chicken", "", 200, ⟨31, 357/100, 0, 165⟩⟩,
       ⟨11, 2, 200, "rice", "", 150, ⟨27/10, 3/10, 28, 130⟩⟩] }

/-- A session draft with two ingredients. -/
def exampleDraft : Draft := ⟨"Lunch", 2, exampleDraftEntries⟩

/-- The protein contribution of one backend ingredient entry:
`nutrients.get('protein', 0) * (grams / 100)`. -/
def contribProtein (ingredient : BIngredient) : ℚ :=
  (ingredient.nutrients.getD rawNone).protein.getD 0 * (ingredient.grams.getD 0 / 100)

/-- The fat contribution of one backend ingredient entry. -/
def contribFat (ingredient : BIngredient) : ℚ :=
  (ingredient.nutrients.getD rawNone).fat.getD 0 * (ingredient.grams.getD 0 / 100)

/-- The carbs contribution of one backend ingredient entry. -/
def contribCarbs (ingredient : BIngredient) : ℚ :=
  (ingredient.nutrients.getD rawNone).carbs.getD 0 * (ingredient.grams.getD 0 / 100)

/-- The calories contribution of one backend ingredient entry. -/
def contribCalories (ingredient : BIngredient) : ℚ :=
  (ingredient.nutrients.getD rawNone).calories.getD 0 * (ingredient.grams.getD 0 / 100)

/-- The backend accumulation loop computes, in each field, the starting
value plus the sum of the per-ingredient contributions. -/
lemma foldl_stepB (l : List BIngredient) (t : NutrientSet) :
    l.foldl stepB t =
      ⟨t.protein + (l.map contribProtein).sum,
       t.fat + (l.map contribFat).sum,
       t.carbs + (l.map contribCarbs).sum,
       t.calories + (l.map contribCalories).sum⟩ := by
  induction l generalizing t with
  | nil => simp
  | cons a l ih =>
    simp only [List.foldl_cons, List.map_cons, List.sum_cons, ih, stepB,
      contribProtein, contribFat, contribCarbs, contribCalories, NutrientSet.mk.injEq]
    refine ⟨by ring, by ring, by ring, by ring⟩

/-- The exact (unrounded) totals of the backend loop, fieldwise. -/
lemma totalsB_eq (l : List BIngredient) :
    totalsB l =
      ⟨(l.map contribProtein).sum, (l.map contribFat).sum,
       (l.map contribCarbs).sum, (l.map contribCalories).sum⟩ := by
  simp [totalsB, foldl_stepB]

/-- The protein contribution of one frontend ingredient entry:
`ing['nutrients']['protein'] * (ing['grams'] / 100)`. -/
def fContribProtein (ing : FIngredient) : ℚ := ing.nutrients.protein * (ing.grams / 100)

/-- The fat contribution of one frontend ingredient entry. -/
def fContribFat (ing : FIngredient) : ℚ := ing.nutrients.fat * (ing.grams / 100)

/-- The carbs contribution of one frontend ingredient entry. -/
def fContribCarbs (ing : FIngredient) : ℚ := ing.nutrients.carbs * (ing.grams / 100)

/-- The calories contribution of one frontend ingredient entry. -/
def fContribCalories (ing : FIngredient) : ℚ := ing.nutrients.calories * (ing.grams / 100)

/-- The frontend accumulation loop computes, in each field, the starting
value plus the sum of the per-ingredient contributions. -/
lemma foldl_stepF (l : List FIngredient) (t : NutrientSet) :
    l.foldl stepF t =
      ⟨t.protein + (l.map fContribProtein).sum,
       t.fat + (l.map fContribFat).sum,
       t.carbs + (l.map fContribCarbs).sum,
       t.calories + (l.map fContribCalories).sum⟩ := by
  induction l generalizing t with
  | nil => simp
  | cons a l ih =>
    simp only [List.foldl_cons, List.map_cons, List.sum_cons, ih, stepF,
      fContribProtein, fContribFat, fContribCarbs, fContribCalories, NutrientSet.mk.injEq]
    refine ⟨by ring, by ring, by ring, by ring⟩

lemma contribProtein_ingOf (g : ℚ) (n : NutrientSet) :
    contribProtein (ingOf g n) = g / 100 * n.protein := by
  simp [contribProtein, ingOf]; ring

lemma contribFat_ingOf (g : ℚ) (n : NutrientSet) :
    contribFat (ingOf g n) = g / 100 * n.fat := by
  simp [contribFat, ingOf]; ring

lemma contribCarbs_ingOf (g : ℚ) (n : NutrientSet) :
    contribCarbs (ingOf g n) = g / 100 * n.carbs := by
  simp [contribCarbs, ingOf]; ring

lemma contribCalories_ingOf (g : ℚ) (n : NutrientSet) :
    contribCalories (ingOf g n) = g / 100 * n.calories := by
  simp [contribCalories, ingOf]; ring

lemma contribProtein_ingOf_fi (i : FIngredient) :
    contribProtein (ingOf i.grams i.nutrients) = fContribProtein i := by
  simp [contribProtein, ingOf, fContribProtein]

lemma contribFat_ingOf_fi (i : FIngredient) :
    contribFat (ingOf i.grams i.nutrients) = fContribFat i := by
  simp [contribFat, ingOf, fContribFat]

lemma contribCarbs_ingOf_fi (i : FIngredient) :
    contribCarbs (ingOf i.grams i.nutrients) = fContribCarbs i := by
  simp [contribCarbs, ingOf, fContribCarbs]

lemma contribCalories_ingOf_fi (i : FIngredient) :
    contribCalories (ingOf i.grams i.nutrients) = fContribCalories i := by
  simp [contribCalories, ingOf, fContribCalories]

/-- C1: for every ingredient list (entries carrying a grams amount and a
per-100g nutrient set) and every serving count ≥ 1, the output `total`
is, fieldwise, the exact running sum of `(grams / 100) * per100g`
rounded to 2 decimals only on output, and `perServing` is that exact
accumulated sum divided by the serving count, rounded to 2 decimals. -/
theorem C1_aggregator_totals (l : List (ℚ × NutrientSet)) (s : ℚ) (_hs : 1 ≤ s) :
    (calcCore (l.map fun p => ingOf p.1 p.2) s).total =
      ⟨round2 ((l.map fun p => p.1 / 100 * p.2.protein).sum),
       round2 ((l.map fun p => p.1 / 100 * p.2.fat).sum),
       round2 ((l.map fun p => p.1 / 100 * p.2.carbs).sum),
       round2 ((l.map fun p => p.1 / 100 * p.2.calories).sum)⟩ ∧
    (calcCore (l.map fun p => ingOf p.1 p.2) s).perServing =
      ⟨round2 ((l.map fun p => p.1 / 100 * p.2.protein).sum / s),
       round2 ((l.map fun p => p.1 / 100 * p.2.fat).sum / s),
       round2 ((l.map fun p => p.1 / 100 * p.2.carbs).sum / s),
       round2 ((l.map fun p => p.1 / 100 * p.2.calories).sum / s)⟩ := by
  simp only [calcCore, totalsB_eq, List.map_map, Function.comp_def,
    contribProtein_ingOf, contribFat_ingOf, contribCarbs_ingOf, contribCalories_ingOf]
  exact ⟨trivial, trivial⟩

/-- C2 (amended): `perServing` equals the exact, unrounded accumulated
total divided by the serving count and then rounded to 2 decimals - not
the already-rounded output `total` divided by the serving count. -/
theorem C2_perServing_from_unrounded_total (l : List BIngredient) (s : ℚ) (_hs : 0 < s) :
    (calcCore l s).perServing =
      ⟨round2 ((l.map contribProtein).sum / s),
       round2 ((l.map contribFat).sum / s),
       round2 ((l.map contribCarbs).sum / s),
       round2 ((l.map contribCalories).sum / s)⟩ := by
  simp only [calcCore, totalsB_eq]

/-- C9: permuting the ingredient list leaves the exact accumulated
totals, and hence the rounded output totals, unchanged; the exact totals
are the elementwise sums of the per-ingredient contributions. -/
theorem C9_total_order_independent (l l₂ : List BIngredient) (h : l.Perm l₂) (s : ℚ) :
    totalsB l =
      ⟨(l.map contribProtein).sum, (l.map contribFat).sum,
       (l.map contribCarbs).sum, (l.map contribCalories).sum⟩ ∧
    totalsB l = totalsB l₂ ∧
    (calcCore l s).total = (calcCore l₂ s).total := by
  have hp : totalsB l = totalsB l₂ := by
    rw [totalsB_eq, totalsB_eq,
      (h.map contribProtein).sum_eq, (h.map contribFat).sum_eq,
      (h.map contribCarbs).sum_eq, (h.map contribCalories).sum_eq]
  refine ⟨totalsB_eq l, hp, ?_⟩
  simp only [calcCore, hp]

/-- C10: on well-formed input (every entry carries grams and all four
nutrient fields), the backend computation inside `calculate_meal` and
the frontend helper `calculate_nutrition` produce identical `total` and
`perServing` nutrient sets. -/
theorem C10_backend_frontend_equivalent (l : List FIngredient) (s : ℚ) (_hs : 1 ≤ s) :
    (calcCore (l.map fun i => ingOf i.grams i.nutrients) s).total =
      (calculate_nutrition l s).total ∧
    (calcCore (l.map fun i => ingOf i.grams i.nutrients) s).perServing =
      (calculate_nutrition l s).perServing := by
  simp only [calcCore, calculate_nutrition, totalsB_eq, foldl_stepF, zero_add,
    List.map_map, Function.comp_def, contribProtein_ingOf_fi, contribFat_ingOf_fi,
    contribCarbs_ingOf_fi, contribCalories_ingOf_fi]
  exact ⟨trivial, trivial⟩

/-- C3: the calculate endpoint answers 400 exactly when the body is
missing, the (defaulted) ingredient list is empty, or the (defaulted)
servings is ≤ 0; and every 200 result was computed with a strictly
positive servings divisor. -/
theorem C3_calculate_validation (body : Option CalcRequest) :
    ((calculate_meal body).isBadRequest = true ↔
      body = none ∨
        ∃ d, body = some d ∧ (d.ingredients.getD [] = [] ∨ d.servings.getD 1 ≤ 0)) ∧
    (∀ r, calculate_meal body = .ok r → 0 < r.servings) := by
  cases body with
  | none =>
    refine ⟨by simp [calculate_meal, CalcResponse.isBadRequest], ?_⟩
    intro r hr
    simp [calculate_meal] at hr
  | some d =>
    by_cases h : d.ingredients.getD [] = [] ∨ d.servings.getD 1 ≤ 0
    · refine ⟨?_, ?_⟩
      · simp only [calculate_meal, if_pos h, CalcResponse.isBadRequest, true_iff]
        exact Or.inr ⟨d, rfl, h⟩
      · intro r hr
        simp only [calculate_meal, if_pos h] at hr
        exact CalcResponse.noConfusion hr
    · refine ⟨?_, ?_⟩
      · constructor
        · intro hbad
          simp only [calculate_meal, if_neg h, CalcResponse.isBadRequest] at hbad
          exact absurd hbad (by simp)
        · intro hcase
          exfalso
          rcases hcase with hnone | ⟨d₂, hd₂, hcond⟩
          · exact Option.noConfusion hnone
          · obtain rfl : d = d₂ := by injection hd₂
            exact h hcond
      · intro r hr
        simp only [calculate_meal, if_neg h, CalcResponse.ok.injEq] at hr
        push_neg at h
        subst hr
        exact h.2

/-- C4 (code bug evidence): submitting servings = 0 to the
update-meal-info transition stores 0 in the draft, so the draft's
servings is not ≥ 1 afterwards; the coercion to ≥ 1 the specification
requires is absent from the code. -/
theorem C4_update_meal_info_accepts_nonpositive :
    (update_meal_info (some defaultDraft) (some "My Meal") (some 0)).servings = 0 ∧
    ¬ 1 ≤ (update_meal_info (some defaultDraft) (some "My Meal") (some 0)).servings := by
  exact ⟨rfl, by decide⟩

lemma extract_nutrients_concat (l : List RawNutrient) (r : RawNutrient) :
    extract_nutrients (l ++ [r]) = applyRecord (extract_nutrients l) r := by
  simp [extract_nutrients, List.foldl_append]

lemma getField_setField_self (n : NutrientSet) (f : NutField) (v : ℚ) :
    getField (setField n f v) f = v := by
  cases f <;> rfl

lemma getField_setField_ne (n : NutrientSet) (f g : NutField) (v : ℚ) (h : f ≠ g) :
    getField (setField n f v) g = getField n g := by
  cases f <;> cases g <;> first | exact absurd rfl h | rfl

lemma lastMatchValue_concat_match (l : List RawNutrient) (r : RawNutrient) (f : NutField)
    (h : matchField r = some f) :
    lastMatchValue (l ++ [r]) f = r.value.getD 0 := by
  simp [lastMatchValue, List.filter_append, h, List.getLast?_concat]

lemma lastMatchValue_concat_nomatch (l : List RawNutrient) (r : RawNutrient) (f : NutField)
    (h : ¬ matchField r = some f) :
    lastMatchValue (l ++ [r]) f = lastMatchValue l f := by
  simp [lastMatchValue, List.filter_append, h]

/-- C5: the extractor yields exactly the four canonical fields; each
field is 0 when no record matches it, a record is assigned by its first
matching substring in the fixed matcher order, and among several records
matching the same field the last one in iteration order wins. -/
theorem C5_extract_last_match_wins (l : List RawNutrient) :
    ∀ f, getField (extract_nutrients l) f = lastMatchValue l f := by
  induction l using List.reverseRecOn with
  | nil => intro f; cases f <;> rfl
  | append_singleton l r ih =>
    intro f
    rw [extract_nutrients_concat]
    cases hm : matchField r with
    | none =>
      rw [applyRecord, hm]
      rw [lastMatchValue_concat_nomatch l r f (by simp [hm])]
      exact ih f
    | some g =>
      by_cases hfg : g = f
      · subst hfg
        rw [applyRecord, hm, getField_setField_self,
          lastMatchValue_concat_match l r g hm]
      · rw [applyRecord, hm, getField_setField_ne _ _ _ _ hfg,
          lastMatchValue_concat_nomatch l r f (by simp [hm, hfg])]
        exact ih f

lemma find?_filter_of_imp {α : Type} (l : List α) (p q : α → Bool)
    (h : ∀ x, p x = true → q x = true) :
    (l.filter q).find? p = l.find? p := by
  induction l with
  | nil => rfl
  | cons a l ih =>
    by_cases hp : p a = true
    · have hq := h a hp
      simp [List.filter_cons, hq, List.find?_cons, hp]
    · by_cases hq : q a = true <;>
        simp [List.filter_cons, hq, List.find?_cons, hp, ih]

/-- C6: deleting an absent meal id answers 404 and leaves the store
untouched; deleting a present one removes the meal row together with all
of its ingredient rows (a subsequent get on that id is a 404 and its
ingredient list is empty), while every other meal id keeps exactly its
meal row and ingredient rows. -/
theorem C6_delete_meal_spec (s : Store) (mealId : ℕ) :
    (findMeal s mealId = none → delete_meal s mealId = (.notFound, s)) ∧
    (∀ m, findMeal s mealId = some m →
      (delete_meal s mealId).1 = .deleted ∧
      get_meal (delete_meal s mealId).2 mealId = none ∧
      mealIngredients (delete_meal s mealId).2 mealId = [] ∧
      ∀ j, j ≠ mealId → get_meal (delete_meal s mealId).2 j = get_meal s j) := by
  constructor
  · intro h
    simp [delete_meal, h]
  · intro m hm
    have hdel : delete_meal s mealId =
        (.deleted,
         { meals := s.meals.filter fun x => ¬ x.id == mealId
           ingredients := s.ingredients.filter fun i => ¬ i.meal_id == mealId }) := by
      simp [delete_meal, hm]
    refine ⟨by rw [hdel], ?_, ?_, ?_⟩
    · rw [hdel]
      simp only [get_meal, findMeal]
      have hnone :
          (s.meals.filter fun x => ¬ x.id == mealId).find? (fun m₂ => m₂.id == mealId) =
            none := by
        rw [List.find?_eq_none]
        intro x hx
        have := (List.mem_filter.mp hx).2
        simpa using this
      rw [hnone]
      rfl
    · rw [hdel]
      simp only [mealIngredients, List.filter_filter]
      have : ∀ i : IngredientRow, ((i.meal_id == mealId) && ¬ i.meal_id == mealId) = false := by
        intro i
        cases hbe : i.meal_id == mealId <;> simp [hbe]
      simp only [this, List.filter_false]
    · intro j hj
      rw [hdel]
      simp only [get_meal, findMeal, mealIngredients, List.filter_filter]
      have hfind :
          (s.meals.filter fun x => ¬ x.id == mealId).find? (fun m₂ => m₂.id == j) =
            s.meals.find? fun m₂ => m₂.id == j := by
        refine find?_filter_of_imp _ _ _ ?_
        intro x hx
        have hxj : x.id = j := by simpa using hx
        simp [hxj, hj]
      have hing :
          (s.ingredients.filter fun i => (i.meal_id == j) && ¬ i.meal_id == mealId) =
            s.ingredients.filter fun i => i.meal_id == j := by
        refine List.filter_congr ?_
        intro i _
        cases hbe : i.meal_id == j with
        | false => simp
        | true =>
          have hij : i.meal_id = j := by simpa using hbe
          simp [hij, hj]
      rw [hfind, hing]

/-- C7: a draft with no ingredients cannot be saved (validation error,
session untouched); a successful backend create clears the session so
the next read sees the default empty draft; a failed create leaves the
session - and hence the draft - exactly as it was. -/
theorem C7_save_meal_spec (sess : Option Draft) (storeOk : Bool) :
    ((getDraft sess).ingredients = [] →
      save_meal sess storeOk = (.validationError, sess)) ∧
    ((getDraft sess).ingredients ≠ [] → storeOk = true →
      save_meal sess storeOk = (.saved, none) ∧ getDraft none = defaultDraft) ∧
    ((getDraft sess).ingredients ≠ [] → storeOk = false →
      save_meal sess storeOk = (.backendError, sess)) := by
  refine ⟨?_, ?_, ?_⟩
  · intro h
    simp [save_meal, h]
  · intro h hok
    subst hok
    exact ⟨by simp [save_meal, h], rfl⟩
  · intro h hok
    subst hok
    simp [save_meal, h]

/-- C8: a query shorter than 2 characters yields an empty suggestion
list with no upstream call; any upstream failure degrades to an empty
list (never an error response); and the suggestion list never exceeds 10
entries. -/
theorem C8_autocomplete_spec (q : String)
    (upstream : Except String (Option (List UpstreamFood))) :
    (q.length < 2 → autocomplete q upstream = (false, [])) ∧
    (∀ e, upstream = .error e → (autocomplete q upstream).2 = []) ∧
    (autocomplete q upstream).2.length ≤ 10 := by
  refine ⟨fun h => by simp [autocomplete, h], ?_, ?_⟩
  · intro e he
    subst he
    by_cases h : q.length < 2 <;> simp [autocomplete, h]
  · by_cases h : q.length < 2
    · simp [autocomplete, h]
    · cases upstream with
      | error e => simp [autocomplete, h]
      | ok d =>
        cases d with
        | none => simp [autocomplete, h]
        | some foods =>
          simp only [autocomplete, if_neg h, List.length_map, List.length_take]
          exact min_le_left _ _

section ConcreteEvaluation

attribute [local semireducible] Rat.add Rat.sub Rat.mul Rat.inv Rat.ofScientific

/-- Witness for C1 at the specification's worked example: the hypothesis
holds at servings = 2 and the outputs evaluate to the stated values. -/
theorem C1_aggregator_totals_witness :
    (1 : ℚ) ≤ 2 ∧
    (calcCore (exampleIngredients.map fun p => ingOf p.1 p.2) 2).total =
      ⟨round2 ((exampleIngredients.map fun p => p.1 / 100 * p.2.protein).sum),
       round2 ((exampleIngredients.map fun p => p.1 / 100 * p.2.fat).sum),
       round2 ((exampleIngredients.map fun p => p.1 / 100 * p.2.carbs).sum),
       round2 ((exampleIngredients.map fun p => p.1 / 100 * p.2.calories).sum)⟩ ∧
    (calcCore (exampleIngredients.map fun p => ingOf p.1 p.2) 2).total =
      ⟨6605/100, 759/100, 42, 525⟩ ∧
    (calcCore (exampleIngredients.map fun p => ingOf p.1 p.2) 2).perServing =
      ⟨3302/100, 38/10, 21, 2625/10⟩ :=
  ⟨by decide, (C1_aggregator_totals exampleIngredients 2 (by decide)).1,
   by decide, by decide⟩

/-- Witness for the amended C2 at a one-ingredient list: the hypothesis
holds at servings = 2 and `perServing` evaluates as stated. -/
theorem C2_perServing_from_unrounded_total_witness :
    (0 : ℚ) < 2 ∧
    (calcCore [ingOf 100 ⟨1026/1000, 0, 0, 0⟩] 2).perServing =
      ⟨round2 (([ingOf 100 ⟨1026/1000, 0, 0, 0⟩].map contribProtein).sum / 2),
       round2 (([ingOf 100 ⟨1026/1000, 0, 0, 0⟩].map contribFat).sum / 2),
       round2 (([ingOf 100 ⟨1026/1000, 0, 0, 0⟩].map contribCarbs).sum / 2),
       round2 (([ingOf 100 ⟨1026/1000, 0, 0, 0⟩].map contribCalories).sum / 2)⟩ ∧
    (calcCore [ingOf 100 ⟨1026/1000, 0, 0, 0⟩] 2).perServing.protein = 51/100 :=
  ⟨by decide,
   C2_perServing_from_unrounded_total [ingOf 100 ⟨1026/1000, 0, 0, 0⟩] 2 (by decide),
   by decide⟩

/-- Counterexample to C2 as stated: a single ingredient of 100 g with
1.026 protein per 100 g, 2 servings. The exact total is 1.026, the
output total field is round2(1.026) = 1.03, and `perServing.protein` is
round2(1.026 / 2) = round2(0.513) = 0.51, while
round2(output total / 2) = round2(0.515) = 0.52 (51.5 ties to the even
integer 52). The floating-point execution yields the same pair: the
binary double for 1.03 is strictly above 1.03, so 1.03 / 2 lies strictly
above 0.515 and `round(1.03 / 2, 2)` is 0.52 there as well, against a
`perServing` of 0.51. -/
theorem C2_output_total_counterexample :
    ¬ ((calcCore [ingOf 100 ⟨1026/1000, 0, 0, 0⟩] 2).perServing.protein =
        round2 ((calcCore [ingOf 100 ⟨1026/1000, 0, 0, 0⟩] 2).total.protein / 2)) := by
  decide

/-- Witness for C9: swapping the two example ingredients changes neither
the exact nor the rounded totals. -/
theorem C9_total_order_independent_witness :
    [ingOf 200 ⟨31, 357/100, 0, 165⟩, ingOf 150 ⟨27/10, 3/10, 28, 130⟩].Perm
      [ingOf 150 ⟨27/10, 3/10, 28, 130⟩, ingOf 200 ⟨31, 357/100, 0, 165⟩] ∧
    totalsB [ingOf 200 ⟨31, 357/100, 0, 165⟩, ingOf 150 ⟨27/10, 3/10, 28, 130⟩] =
      totalsB [ingOf 150 ⟨27/10, 3/10, 28, 130⟩, ingOf 200 ⟨31, 357/100, 0, 165⟩] ∧
    (calcCore [ingOf 200 ⟨31, 357/100, 0, 165⟩, ingOf 150 ⟨27/10, 3/10, 28, 130⟩] 2).total =
      (calcCore [ingOf 150 ⟨27/10, 3/10, 28, 130⟩, ingOf 200 ⟨31, 357/100, 0, 165⟩] 2).total :=
  have hperm :
      [ingOf 200 ⟨31, 357/100, 0, 165⟩, ingOf 150 ⟨27/10, 3/10, 28, 130⟩].Perm
        [ingOf 150 ⟨27/10, 3/10, 28, 130⟩, ingOf 200 ⟨31, 357/100, 0, 165⟩] :=
    List.Perm.swap _ _ _
  ⟨hperm,
   (C9_total_order_independent _ _ hperm 2).2.1,
   (C9_total_order_independent _ _ hperm 2).2.2⟩

/-- Witness for C10 at the specification's worked example (as frontend
draft entries): backend and frontend outputs coincide and evaluate to
the stated values. -/
theorem C10_backend_frontend_equivalent_witness :
    (1 : ℚ) ≤ 2 ∧
    (calcCore (exampleDraftEntries.map fun i => ingOf i.grams i.nutrients) 2).total =
      (calculate_nutrition exampleDraftEntries 2).total ∧
    (calculate_nutrition exampleDraftEntries 2).perServing =
      ⟨3302/100, 38/10, 21, 2625/10⟩ :=
  ⟨by decide,
   (C10_backend_frontend_equivalent exampleDraftEntries 2 (by decide)).1,
   by decide⟩

/-- Witness for C3: a missing body is answered with a 400, while a body
with one ingredient and 2 servings is answered with a 200 whose
servings divisor is positive. -/
theorem C3_calculate_validation_witness :
    (calculate_meal none).isBadRequest = true ∧
    calculate_meal (some ⟨some [ingOf 100 ⟨1, 2, 3, 4⟩], some 2⟩) =
      .ok (calcCore [ingOf 100 ⟨1, 2, 3, 4⟩] 2) ∧
    (0 : ℚ) < (calcCore [ingOf 100 ⟨1, 2, 3, 4⟩] 2).servings :=
  ⟨(C3_calculate_validation none).1.mpr (Or.inl rfl),
   by decide,
   (C3_calculate_validation (some ⟨some [ingOf 100 ⟨1, 2, 3, 4⟩], some 2⟩)).2 _ (by decide)⟩

/-- Witness for C6 on the two-meal store: deleting meal 1 removes its
row and its ingredient row, leaves meal 2 and its ingredients intact,
and deleting the absent id 3 answers 404 without touching the store. -/
theorem C6_delete_meal_spec_witness :
    findMeal exampleStore 1 = some ⟨1, "Meal A", 2, ⟨1, 1, 1, 1⟩, ⟨1, 1, 1, 1⟩⟩ ∧
    (delete_meal exampleStore 1).1 = .deleted ∧
    get_meal (delete_meal exampleStore 1).2 1 = none ∧
    mealIngredients (delete_meal exampleStore 1).2 1 = [] ∧
    get_meal (delete_meal exampleStore 1).2 2 = get_meal exampleStore 2 ∧
    delete_meal exampleStore 3 = (.notFound, exampleStore) :=
  have hm : findMeal exampleStore 1 = some ⟨1, "Meal A", 2, ⟨1, 1, 1, 1⟩, ⟨1, 1, 1, 1⟩⟩ := by
    decide
  have h := (C6_delete_meal_spec exampleStore 1).2 _ hm
  ⟨hm, h.1, h.2.1, h.2.2.1, h.2.2.2 2 (by decide),
   (C6_delete_meal_spec exampleStore 3).1 (by decide)⟩

/-- Witness for C7: saving the two-ingredient draft with an ok backend
clears the session; with a failing backend the session is unchanged;
saving the default empty draft is a validation error. -/
theorem C7_save_meal_spec_witness :
    save_meal (some exampleDraft) true = (.saved, none) ∧
    getDraft none = defaultDraft ∧
    save_meal (some exampleDraft) false = (.backendError, some exampleDraft) ∧
    save_meal none true = (.validationError, none) :=
  have hne : (getDraft (some exampleDraft)).ingredients ≠ [] := by decide
  ⟨((C7_save_meal_spec (some exampleDraft) true).2.1 hne rfl).1,
   ((C7_save_meal_spec (some exampleDraft) true).2.1 hne rfl).2,
   (C7_save_meal_spec (some exampleDraft) false).2.2 hne rfl,
   (C7_save_meal_spec none true).1 (by decide)⟩

/-- Witness for C8: a 1-character query yields no call and no results; a
failing upstream yields an empty list; a 12-item upstream payload is cut
to at most 10 suggestions. -/
theorem C8_autocomplete_spec_witness :
    autocomplete "a" (.ok (some [⟨some "Apple", some 1⟩])) = (false, []) ∧
    (autocomplete "ap" (.error "timeout")).2 = [] ∧
    (autocomplete "ap" (.ok (some (List.replicate 12 ⟨some "Apple", some 1⟩)))).2.length ≤ 10 :=
  ⟨(C8_autocomplete_spec "a" (.ok (some [⟨some "Apple", some 1⟩]))).1 (by decide),
   (C8_autocomplete_spec "ap" (.error "timeout")).2.1 "timeout" rfl,
   (C8_autocomplete_spec "ap" (.ok (some (List.replicate 12 ⟨some "Apple", some 1⟩)))).2.2⟩

end ConcreteEvaluation
